import Mathlib

/-!
Verification of the agent-4-plc generation-result pipeline against its
specification.  The client components (`PlcGeneratorV2`, `HmiGeneratorV2`,
`LoginModal`, `Profile`) are shallowly embedded from the React sources;
the backend validator/report builder, which is not part of the sources,
is modelled from the specification where a claim requires it.
-/

namespace Agent4Plc

/-- Embeds JavaScript `String.prototype.startsWith`: the pattern's
character sequence is a prefix of the subject's character sequence. -/
def jsStartsWith (s p : String) : Bool :=
  p.data.isPrefixOf s.data

/-- Embeds JavaScript `String.prototype.trim`: leading and trailing
whitespace characters are removed from the character sequence. -/
def jsTrim (s : String) : String :=
  ⟨((s.data.dropWhile Char.isWhitespace).reverse.dropWhile Char.isWhitespace).reverse⟩

/-- Embeds the falsiness test `!token` applied to the result of
`localStorage.getItem("token")`: `null` (here `none`) and the empty
string are falsy. -/
def jsTokenAbsent (t : Option String) : Bool :=
  match t with
  | none => true
  | some s => s = ""

/-- The success payload of `POST /plc-v2/generate`
(`{ code, language, validated, warnings, explanation, timestamp }`). -/
structure GeneratedData where
  code : String
  language : String
  validated : Bool
  warnings : List String
  explanation : String
  timestamp : String
deriving DecidableEq, Repr

/-- One entry of `codeHistory` in `PlcGeneratorV2`:
`{ id: Date.now(), requirement, language, code: data.code, timestamp }`. -/
structure HistEntry where
  id : Nat
  requirement : String
  language : String
  code : String
  timestamp : String
deriving DecidableEq, Repr

/-- The component state of `PlcGeneratorV2` (its `useState` hooks). -/
structure PlcState where
  showModal : Bool
  requirement : String
  language : String
  plcBrand : String
  loading : Bool
  generatedCode : Option GeneratedData
  editedCode : String
  isEditing : Bool
  showPreview : Bool
  codeHistory : List HistEntry
deriving DecidableEq, Repr

/-- The initial state of `PlcGeneratorV2` from its `useState` defaults. -/
def initPlcState : PlcState :=
  { showModal := false
    requirement := ""
    language := "ST"
    plcBrand := "generic"
    loading := false
    generatedCode := none
    editedCode := ""
    isEditing := false
    showPreview := false
    codeHistory := [] }

/-- The outcome of the `fetch` call in `handleGenerate`: a parsed ok
response, a non-ok HTTP response, or a network/parse failure. -/
inductive FetchOutcome where
  | ok (data : GeneratedData)
  | httpError (status : Nat) (detail : String)
  | networkError (msg : String)
deriving DecidableEq, Repr

/-- Whether the fetch outcome is the ok case. -/
def FetchOutcome.isOk : FetchOutcome → Bool
  | .ok _ => true
  | _ => false

/-- Embeds `PlcGeneratorV2.handleGenerate`.  `now` is `Date.now()` and
`tstr` is `new Date().toLocaleTimeString()` at the moment of success.
Returns the new state and the number of fetch invocations issued. -/
def handleGenerate (s : PlcState) (now : Nat) (tstr : String)
    (out : FetchOutcome) : PlcState × Nat :=
  if jsTrim s.requirement = "" then
    (s, 0)
  else
    match out with
    | .ok data =>
        ({ s with
            loading := false
            generatedCode := some data
            editedCode := data.code
            isEditing := false
            showPreview := true
            showModal := false
            codeHistory := s.codeHistory ++
              [{ id := now
                 requirement := s.requirement
                 language := s.language
                 code := data.code
                 timestamp := tstr }] }, 1)
    | .httpError _ _ => ({ s with loading := false }, 1)
    | .networkError _ => ({ s with loading := false }, 1)

/-- A file handed to the browser for download: the blob content, the
blob MIME type, and the chosen file name. -/
structure DownloadFile where
  content : String
  contentType : String
  filename : String
deriving DecidableEq, Repr

/-- The file name built in `PlcGeneratorV2.handleDownload`. -/
def plcFilename (language : String) (now : Nat) : String :=
  let ext := if language = "ST" then "st" else if language = "IL" then "il" else "txt"
  "plc_code_" ++ language ++ "_" ++ toString now ++ "." ++ ext

/-- Embeds `PlcGeneratorV2.handleDownload`: no file when nothing was
generated; otherwise a `text/plain` blob holding `editedCode` when edit
mode is on and `generatedCode.code` otherwise. -/
def handleDownload (s : PlcState) (now : Nat) : Option DownloadFile :=
  match s.generatedCode with
  | none => none
  | some g =>
      some { content := if s.isEditing then s.editedCode else g.code
             contentType := "text/plain"
             filename := plcFilename s.language now }

/-- Embeds `PlcGeneratorV2.handleClearHistory`: clears the history and
also resets the generated artifact, the preview flag and the entered
requirement text. -/
def handleClearHistory (s : PlcState) : PlcState :=
  { s with
      codeHistory := []
      generatedCode := none
      showPreview := false
      requirement := "" }

/-- Embeds `PlcGeneratorV2.handleTryNow`: opens the generation modal
only when a stored token is present (non-null, non-empty). -/
def handleTryNow (s : PlcState) (token : Option String) : PlcState :=
  if jsTokenAbsent token then s else { s with showModal := true }

/-- The view data rendered for one history entry (the `key`, badges and
truncated texts of the history list in `PlcGeneratorV2`). -/
structure HistView where
  key : Nat
  language : String
  timestamp : String
  requirementSnippet : String
  codeSnippet : String
deriving DecidableEq, Repr

/-- The view of one history entry: `substring(0, 50)` of the
requirement and `substring(0, 200)` of the code. -/
def viewOfEntry (e : HistEntry) : HistView :=
  { key := e.id
    language := e.language
    timestamp := e.timestamp
    requirementSnippet := e.requirement.take 50
    codeSnippet := e.code.take 200 }

/-- The rendered history list: `codeHistory.map(...)` in source order. -/
def renderHistory (s : PlcState) : List HistView :=
  s.codeHistory.map viewOfEntry

/-- The CSS severity class assigned to one rendered warning string in
the validation list of `PlcGeneratorV2`. -/
inductive SevClass where
  | error
  | warning
  | tip
deriving DecidableEq, Repr

/-- Embeds the per-warning classification in the `PlcGeneratorV2`
render: `isError` when the string starts with the error marker, else
`warning` when it starts with the warning marker, else `tip`. -/
def classifyWarning (w : String) : SevClass :=
  if jsStartsWith w "❌" then .error
  else if jsStartsWith w "⚠️" then .warning
  else .tip

/-- The success payload of `POST /plc/generate-hmi` (`{ hmi_code }`). -/
structure HmiData where
  hmi_code : String
deriving DecidableEq, Repr

/-- One entry of `hmiHistory` in `HmiGeneratorV2`. -/
structure HmiHistEntry where
  id : Nat
  requirement : String
  hmi_code : String
  timestamp : String
deriving DecidableEq, Repr

/-- The component state of `HmiGeneratorV2` (its `useState` hooks). -/
structure HmiState where
  showModal : Bool
  requirement : String
  loading : Bool
  generatedHmi : Option HmiData
  showPreview : Bool
  hmiHistory : List HmiHistEntry
deriving DecidableEq, Repr

/-- The initial state of `HmiGeneratorV2` from its `useState` defaults. -/
def initHmiState : HmiState :=
  { showModal := false
    requirement := ""
    loading := false
    generatedHmi := none
    showPreview := false
    hmiHistory := [] }

/-- The outcome of the fetch in `HmiGeneratorV2.handleGenerate`. -/
inductive HmiFetchOutcome where
  | ok (data : HmiData)
  | httpError (detail : String)
  | networkError (msg : String)
deriving DecidableEq, Repr

/-- Whether the HMI fetch outcome is the ok case. -/
def HmiFetchOutcome.isOk : HmiFetchOutcome → Bool
  | .ok _ => true
  | _ => false

/-- Embeds `HmiGeneratorV2.handleGenerate`.  Returns the new state and
the number of fetch invocations issued. -/
def hmiHandleGenerate (s : HmiState) (now : Nat) (tstr : String)
    (out : HmiFetchOutcome) : HmiState × Nat :=
  if jsTrim s.requirement = "" then
    (s, 0)
  else
    match out with
    | .ok data =>
        ({ s with
            loading := false
            generatedHmi := some data
            showPreview := true
            hmiHistory := s.hmiHistory ++
              [{ id := now
                 requirement := s.requirement
                 hmi_code := data.hmi_code
                 timestamp := tstr }] }, 1)
    | .httpError _ => ({ s with loading := false }, 1)
    | .networkError _ => ({ s with loading := false }, 1)

/-- Embeds `HmiGeneratorV2.handleDownload`: a `text/html` blob holding
exactly `generatedHmi.hmi_code`. -/
def hmiHandleDownload (s : HmiState) (now : Nat) : Option DownloadFile :=
  match s.generatedHmi with
  | none => none
  | some g =>
      some { content := g.hmi_code
             contentType := "text/html"
             filename := "hmi_interface_" ++ toString now ++ ".html" }

/-- Embeds `HmiGeneratorV2.handleClearHistory`. -/
def hmiHandleClearHistory (s : HmiState) : HmiState :=
  { s with
      hmiHistory := []
      generatedHmi := none
      showPreview := false
      requirement := "" }

/-- Embeds `HmiGeneratorV2.handleTryNow`. -/
def hmiHandleTryNow (s : HmiState) (token : Option String) : HmiState :=
  if jsTokenAbsent token then s else { s with showModal := true }

/-! ### A client session as a transition system

The PLC generator page together with the stored token, driven by the
user events present in the sources: a successful login stores the
token (`LoginModal.handleLogin`), logout removes it
(`Profile.handleLogout`), typing updates the requirement textarea,
`handleTryNow` opens the modal, the cancel/close buttons close it, and
the Generate button (rendered only inside the open modal, disabled
while loading or while the trimmed requirement is empty) runs
`handleGenerate`. -/

/-- The token plus the `PlcGeneratorV2` component state. -/
structure GState where
  token : Option String
  plc : PlcState
deriving DecidableEq, Repr

/-- The initial session state: no stored token, fresh component. -/
def initGState : GState :=
  { token := none, plc := initPlcState }

/-- User events drawn from the client sources. -/
inductive Event where
  | loginOk (tok : String)
  | logout
  | typeRequirement (r : String)
  | tryNow
  | closeModal
  | generate (now : Nat) (tstr : String) (out : FetchOutcome)
deriving DecidableEq, Repr

/-- One step of the session: the next state and the number of
generation fetches issued during the step.  A `generate` event has an
effect only when the modal is open and the Generate button is enabled,
that is, not loading and the trimmed requirement is non-empty. -/
def stepG (s : GState) : Event → GState × Nat
  | .loginOk tok => ({ s with token := some tok }, 0)
  | .logout => ({ s with token := none }, 0)
  | .typeRequirement r =>
      ({ s with plc := { s.plc with requirement := r } }, 0)
  | .tryNow => ({ s with plc := handleTryNow s.plc s.token }, 0)
  | .closeModal => ({ s with plc := { s.plc with showModal := false } }, 0)
  | .generate now tstr out =>
      if s.plc.showModal && !s.plc.loading && !(jsTrim s.plc.requirement = "") then
        let r := handleGenerate s.plc now tstr out
        ({ s with plc := r.1 }, r.2)
      else
        (s, 0)

/-- Runs a list of events from a state. -/
def runG (s : GState) : List Event → GState
  | [] => s
  | e :: rest => runG (stepG s e).1 rest

/-- Counts the generation fetches that are issued from a state in
which no authentication token is stored. -/
def fetchesWithoutToken (s : GState) : List Event → Nat
  | [] => 0
  | e :: rest =>
      (if jsTokenAbsent s.token then (stepG s e).2 else 0) +
        fetchesWithoutToken (stepG s e).1 rest

/-- Runs a sequence of successful generations (`Date.now()` value,
formatted time string, response data) through `handleGenerate`. -/
def runSuccesses (s : PlcState) : List (Nat × String × GeneratedData) → PlcState
  | [] => s
  | (now, tstr, d) :: rest =>
      runSuccesses (handleGenerate s now tstr (.ok d)).1 rest

/-! ### The backend pipeline, modelled from the specification

The repository ships only the client; the validator, report builder
and boundary encoding live in the backend, which is not among the
sources.  The definitions below are therefore modelled from the
specification (sections 3, 4.2, 4.4, 6 and 9 of the design document)
and are marked as such. -/

/-- Modelled from the spec: the severity tier of a Finding. -/
inductive Severity where
  | error
  | warning
  | tip
deriving DecidableEq, Repr

/-- Modelled from the spec: the five IEC 61131-3 dialects. -/
inductive Dialect where
  | ST
  | LD
  | FBD
  | SFC
  | IL
deriving DecidableEq, Repr

/-- Modelled from the spec: the vendor brands. -/
inductive Vendor where
  | generic
  | siemens
  | mitsubishi
  | ab
  | schneider
deriving DecidableEq, Repr

/-- Modelled from the spec: a validator Finding
`{ rule_id, severity, message, dialect_scope }`. -/
structure Finding where
  rule_id : Nat
  severity : Severity
  message : String
  dialect_scope : Dialect
deriving DecidableEq, Repr

/-- Whether a finding has error severity. -/
def isErrorF (f : Finding) : Bool := f.severity == .error

/-- Whether a finding has warning severity. -/
def isWarnF (f : Finding) : Bool := f.severity == .warning

/-- Whether a finding has tip severity. -/
def isTipF (f : Finding) : Bool := f.severity == .tip

/-- Modelled from the spec: a ValidationReport
`{ findings, validated, explanation }`. -/
structure ValidationReport where
  findings : List Finding
  validated : Bool
  explanation : String
deriving DecidableEq, Repr

/-- Modelled from the spec: `ReportBuilder.build` partitions the
findings as `errors ++ warnings ++ tips` (each part keeping the
validator's rule-evaluation order), derives `validated` as "no error
findings", and renders a narrative from the counts. -/
def buildReport (fs : List Finding) : ValidationReport :=
  let errs := fs.filter isErrorF
  let warns := fs.filter isWarnF
  let tips := fs.filter isTipF
  { findings := errs ++ warns ++ tips
    validated := errs.isEmpty
    explanation :=
      toString (errs.length + warns.length + tips.length) ++ " issues found: " ++
        toString errs.length ++ " errors, " ++
        toString warns.length ++ " warnings, " ++
        toString tips.length ++ " tips" }

/-- Modelled from the spec: the boundary severity marker prefixed to a
warning string (section 6 wire format, matching the markers the client
classifies on). -/
def severityMarker : Severity → String
  | .error => "❌"
  | .warning => "⚠️"
  | .tip => "💡"

/-- Modelled from the spec: the wire form of one finding, the severity
marker followed by the message. -/
def findingToWarning (f : Finding) : String :=
  severityMarker f.severity ++ " " ++ f.message

/-- Whether `pat` occurs inside `code`, on character sequences. -/
def containsSub (code pat : String) : Bool :=
  decide (pat.data <:+: code.data)

/-- Modelled from the spec: one structural rule of a dialect's rule
table; the rule yields a finding exactly when its check fails. -/
structure VRule where
  id : Nat
  sev : Severity
  msg : String
  ok : String → Bool

/-- Modelled from the spec: the ST rule table (program block pair,
variable declaration block, comment header). -/
def stRules : List VRule :=
  [ { id := 1, sev := .error, msg := "missing program block"
      ok := fun c => containsSub c "PROGRAM" && containsSub c "END_PROGRAM" }
  , { id := 2, sev := .error, msg := "missing variable declaration block"
      ok := fun c => containsSub c "VAR" && containsSub c "END_VAR" }
  , { id := 3, sev := .warning, msg := "missing comment header"
      ok := fun c => containsSub c "(*" }
  , { id := 4, sev := .tip, msg := "consider a program title comment"
      ok := fun c => containsSub c "(* Program:" } ]

/-- Modelled from the spec: the LD rule table (rung present, rung
terminated). -/
def ldRules : List VRule :=
  [ { id := 1, sev := .error, msg := "no rung construct present"
      ok := fun c => containsSub c "|--" }
  , { id := 2, sev := .error, msg := "rung lacks a terminating element"
      ok := fun c => containsSub c "--|" } ]

/-- Modelled from the spec: the FBD rule table (block connections
declared). -/
def fbdRules : List VRule :=
  [ { id := 1, sev := .error, msg := "referenced block lacks a declared connection"
      ok := fun c => containsSub c "IN" && containsSub c "OUT" } ]

/-- Modelled from the spec: the SFC rule table (initial step marked,
outgoing transition present). -/
def sfcRules : List VRule :=
  [ { id := 1, sev := .error, msg := "initial step not marked"
      ok := fun c => containsSub c "INITIAL_STEP" }
  , { id := 2, sev := .error, msg := "step has no outgoing transition"
      ok := fun c => containsSub c "TRANSITION" } ]

/-- Modelled from the spec: the IL rule table (recognized mnemonic on
every instruction line). -/
def ilRules : List VRule :=
  [ { id := 1, sev := .error, msg := "instruction line lacks a recognized mnemonic"
      ok := fun c => (c.splitOn "\n").all fun l =>
        jsTrim l = "" ||
          ["LD", "ST", "AND", "OR", "ADD", "SUB", "JMP", "CAL", "RET"].any
            fun m => jsStartsWith (jsTrim l) m } ]

/-- Modelled from the spec: the rule table of each dialect. -/
def ruleTable : Dialect → List VRule
  | .ST => stRules
  | .LD => ldRules
  | .FBD => fbdRules
  | .SFC => sfcRules
  | .IL => ilRules

/-- Modelled from the spec: vendor-specific rules layered on top of
the generic dialect rules, never replacing them; ids start at 100 so
the combined table stays in ascending rule-id order. -/
def vendorRules : Vendor → List VRule
  | .generic => []
  | .siemens =>
      [ { id := 100, sev := .warning, msg := "use Siemens block naming"
          ok := fun c => containsSub c "FB" || containsSub c "OB" } ]
  | .mitsubishi =>
      [ { id := 100, sev := .warning, msg := "use MELSEC device naming"
          ok := fun c => containsSub c "M" } ]
  | .ab =>
      [ { id := 100, sev := .warning, msg := "use Allen-Bradley tag naming"
          ok := fun c => containsSub c "Tag" } ]
  | .schneider =>
      [ { id := 100, sev := .warning, msg := "use Schneider section naming"
          ok := fun c => containsSub c "SECTION" } ]

/-- Modelled from the spec: evaluates a rule table in order; each rule
yields zero or one finding. -/
def applyRules (rules : List VRule) (code : String) (d : Dialect) : List Finding :=
  rules.filterMap fun r =>
    if r.ok code then none
    else some { rule_id := r.id, severity := r.sev, message := r.msg, dialect_scope := d }

/-- Modelled from the spec: `DialectValidator.validate`, the generic
dialect rules followed by the vendor layer. -/
def validateDialect (code : String) (d : Dialect) (v : Vendor) : List Finding :=
  applyRules (ruleTable d ++ vendorRules v) code d

/-! ### Claims -/

/-- C2: an empty or whitespace-only requirement is rejected before any
generation call: with an empty trimmed requirement, both client
generate handlers return with the state unchanged and zero fetch
invocations. -/
theorem c2_empty_requirement_no_fetch (s : PlcState) (h : jsTrim s.requirement = "")
    (now : Nat) (tstr : String) (out : FetchOutcome)
    (u : HmiState) (h' : jsTrim u.requirement = "") (out' : HmiFetchOutcome) :
    handleGenerate s now tstr out = (s, 0) ∧
    hmiHandleGenerate u now tstr out' = (u, 0) := by
  constructor
  · simp [handleGenerate, h]
  · simp [hmiHandleGenerate, h']

/-- Witness for C2 at a whitespace-only requirement. -/
theorem c2_witness :
    handleGenerate { initPlcState with requirement := " \t " } 0 "t" (.networkError "down") =
      ({ initPlcState with requirement := " \t " }, 0) ∧
    hmiHandleGenerate initHmiState 0 "t" (.ok { hmi_code := "<html></html>" }) =
      (initHmiState, 0) :=
  c2_empty_requirement_no_fetch
    { initPlcState with requirement := " \t " } (by decide) 0 "t" (.networkError "down")
    initHmiState (by decide) (.ok { hmi_code := "<html></html>" })

/-- C10: the client severity classification of warning strings is
total with tip as the default: a string is classified error exactly
when it starts with the error marker, warning exactly when it does not
start with the error marker but starts with the warning marker, and
tip exactly in every remaining case. -/
theorem c10_classification_total_tip_default (w : String) :
    (classifyWarning w = .error ∨ classifyWarning w = .warning ∨
      classifyWarning w = .tip) ∧
    (classifyWarning w = .error ↔ jsStartsWith w "❌" = true) ∧
    (classifyWarning w = .warning ↔
      (jsStartsWith w "❌" = false ∧ jsStartsWith w "⚠️" = true)) ∧
    (classifyWarning w = .tip ↔
      (jsStartsWith w "❌" = false ∧ jsStartsWith w "⚠️" = false)) := by
  unfold classifyWarning
  by_cases h1 : jsStartsWith w "❌" = true
  · simp [h1]
  · by_cases h2 : jsStartsWith w "⚠️" = true <;>
      simp_all [Bool.not_eq_true]

/-- C6, counterexample state: an artifact, a preview and a typed
requirement are present when history is cleared. -/
def c6State : PlcState :=
  { initPlcState with
      requirement := "pump control"
      generatedCode := some
        { code := "PROGRAM P END_PROGRAM", language := "ST", validated := true
          warnings := [], explanation := "ok", timestamp := "2025-01-01" }
      showPreview := true }

/-- C6 fails as stated: clearing the history also resets the generated
artifact, the preview flag and the entered requirement text, all of
which are state outside the history store. -/
theorem c6_counterexample :
    (handleClearHistory c6State).generatedCode ≠ c6State.generatedCode ∧
    (handleClearHistory c6State).requirement ≠ c6State.requirement ∧
    (handleClearHistory c6State).showPreview ≠ c6State.showPreview := by
  decide

/-- C6 amended: clearing the history empties the store and in addition
resets the generated artifact to null, hides the preview and clears
the requirement text; every other field (language, vendor brand,
loading flag, edited code, edit mode, modal visibility) is untouched,
and no generation call is involved. -/
theorem c6_amended_clear_effect (s : PlcState) (u : HmiState) :
    handleClearHistory s =
      { s with codeHistory := [], generatedCode := none,
               showPreview := false, requirement := "" } ∧
    (handleClearHistory s).language = s.language ∧
    (handleClearHistory s).plcBrand = s.plcBrand ∧
    (handleClearHistory s).loading = s.loading ∧
    (handleClearHistory s).editedCode = s.editedCode ∧
    (handleClearHistory s).isEditing = s.isEditing ∧
    (handleClearHistory s).showModal = s.showModal ∧
    hmiHandleClearHistory u =
      { u with hmiHistory := [], generatedHmi := none,
               showPreview := false, requirement := "" } ∧
    (hmiHandleClearHistory u).loading = u.loading ∧
    (hmiHandleClearHistory u).showModal = u.showModal :=
  ⟨rfl, rfl, rfl, rfl, rfl, rfl, rfl, rfl, rfl, rfl⟩

/-- C7, counterexample state: edit mode is on and the edited text
differs from the generated artifact. -/
def c7State : PlcState :=
  { initPlcState with
      generatedCode := some
        { code := "ORIGINAL CODE", language := "ST", validated := true
          warnings := [], explanation := "ok", timestamp := "2025-01-01" }
      editedCode := "EDITED CODE"
      isEditing := true }

/-- C7 fails as stated: with edit mode on, the downloaded blob holds
the edited text, not the packaged artifact's `code` string. -/
theorem c7_counterexample :
    (handleDownload c7State 0).map DownloadFile.content = some "EDITED CODE" ∧
    c7State.generatedCode.map GeneratedData.code = some "ORIGINAL CODE" ∧
    (handleDownload c7State 0).map DownloadFile.content ≠
      c7State.generatedCode.map GeneratedData.code := by
  decide

/-- C7 amended: the download applies no transformation and uses a
content type matching the artifact kind, but the PLC download yields
the raw artifact only outside edit mode; in edit mode it yields the
user-edited text instead.  The HMI download always yields the raw
`hmi_code`. -/
theorem c7_amended_download_raw (now : Nat) :
    (∀ (t : PlcState) (g : GeneratedData), t.generatedCode = some g →
      handleDownload t now =
        some { content := if t.isEditing then t.editedCode else g.code
               contentType := "text/plain"
               filename := plcFilename t.language now }) ∧
    (∀ t : PlcState, t.generatedCode = none → handleDownload t now = none) ∧
    (∀ (u : HmiState) (g : HmiData), u.generatedHmi = some g →
      hmiHandleDownload u now =
        some { content := g.hmi_code
               contentType := "text/html"
               filename := "hmi_interface_" ++ toString now ++ ".html" }) ∧
    (∀ u : HmiState, u.generatedHmi = none → hmiHandleDownload u now = none) := by
  refine ⟨?_, ?_, ?_, ?_⟩
  · intro t g h; simp [handleDownload, h]
  · intro t h; simp [handleDownload, h]
  · intro u g h; simp [hmiHandleDownload, h]
  · intro u h; simp [hmiHandleDownload, h]

/-- Witness for C7 amended: outside edit mode the blob text equals the
artifact text character for character. -/
theorem c7_amended_witness :
    handleDownload
      { initPlcState with
          generatedCode := some
            { code := "PROGRAM P END_PROGRAM", language := "ST", validated := true
              warnings := [], explanation := "ok", timestamp := "2025-01-01" } } 5 =
      some { content := "PROGRAM P END_PROGRAM", contentType := "text/plain"
             filename := plcFilename "ST" 5 } :=
  (c7_amended_download_raw 5).1
    { initPlcState with
        generatedCode := some
          { code := "PROGRAM P END_PROGRAM", language := "ST", validated := true
            warnings := [], explanation := "ok", timestamp := "2025-01-01" } }
    { code := "PROGRAM P END_PROGRAM", language := "ST", validated := true
      warnings := [], explanation := "ok", timestamp := "2025-01-01" }
    rfl

/-- C5: the history stores are append-only: every generate outcome
leaves the previous entries as an unchanged prefix, the try-now and
download handlers never touch the history, clearing is the only
removal operation and removes everything, and the rendered listing is
the stored sequence in append order. -/
theorem c5_history_append_only (s : PlcState) (now : Nat) (tstr : String)
    (out : FetchOutcome) (token : Option String)
    (u : HmiState) (out' : HmiFetchOutcome) :
    s.codeHistory <+: (handleGenerate s now tstr out).1.codeHistory ∧
    (handleTryNow s token).codeHistory = s.codeHistory ∧
    (handleClearHistory s).codeHistory = [] ∧
    renderHistory s = s.codeHistory.map viewOfEntry ∧
    u.hmiHistory <+: (hmiHandleGenerate u now tstr out').1.hmiHistory ∧
    (hmiHandleTryNow u token).hmiHistory = u.hmiHistory ∧
    (hmiHandleClearHistory u).hmiHistory = [] := by
  refine ⟨?_, ?_, rfl, rfl, ?_, ?_, rfl⟩
  · by_cases h : jsTrim s.requirement = "" <;>
      cases out <;> simp [handleGenerate, h]
  · unfold handleTryNow; by_cases h : jsTokenAbsent token <;> simp [h]
  · by_cases h : jsTrim u.requirement = "" <;>
      cases out' <;> simp [hmiHandleGenerate, h]
  · unfold hmiHandleTryNow; by_cases h : jsTokenAbsent token <;> simp [h]

/-- C3: a successful run appends exactly one entry at the end of the
history; a run that fails before packaging — empty trimmed requirement,
non-ok HTTP response, or network failure — leaves the history and the
current result record unchanged, for both clients. -/
theorem c3_one_append_per_success (s : PlcState) (now : Nat) (tstr : String)
    (d : GeneratedData) (h : ¬ jsTrim s.requirement = "")
    (out : FetchOutcome) (hout : out.isOk = false)
    (s0 : PlcState) (h0 : jsTrim s0.requirement = "") (out0 : FetchOutcome)
    (u : HmiState) (hd : HmiData) (h' : ¬ jsTrim u.requirement = "")
    (out' : HmiFetchOutcome) (hout' : out'.isOk = false) :
    (handleGenerate s now tstr (.ok d)).1.codeHistory =
      s.codeHistory ++
        [{ id := now, requirement := s.requirement, language := s.language,
           code := d.code, timestamp := tstr }] ∧
    (handleGenerate s now tstr out).1.codeHistory = s.codeHistory ∧
    (handleGenerate s now tstr out).1.generatedCode = s.generatedCode ∧
    (handleGenerate s0 now tstr out0).1 = s0 ∧
    (hmiHandleGenerate u now tstr (.ok hd)).1.hmiHistory =
      u.hmiHistory ++
        [{ id := now, requirement := u.requirement,
           hmi_code := hd.hmi_code, timestamp := tstr }] ∧
    (hmiHandleGenerate u now tstr out').1.hmiHistory = u.hmiHistory ∧
    (hmiHandleGenerate u now tstr out').1.generatedHmi = u.generatedHmi := by
  refine ⟨by simp [handleGenerate, h], ?_, ?_, ?_, by simp [hmiHandleGenerate, h'], ?_, ?_⟩
  · cases out <;> simp_all [handleGenerate, FetchOutcome.isOk]
  · cases out <;> simp_all [handleGenerate, FetchOutcome.isOk]
  · simp [handleGenerate, h0]
  · cases out' <;> simp_all [hmiHandleGenerate, HmiFetchOutcome.isOk]
  · cases out' <;> simp_all [hmiHandleGenerate, HmiFetchOutcome.isOk]

/-- Witness for C3: one successful PLC run appends one entry; a failed
run and an empty-requirement run leave everything unchanged. -/
theorem c3_witness :
    (handleGenerate { initPlcState with requirement := "pump control" } 9 "10:00"
        (.ok { code := "PROGRAM P END_PROGRAM", language := "ST", validated := true
               warnings := [], explanation := "ok", timestamp := "2025-01-01" })).1.codeHistory =
      [{ id := 9, requirement := "pump control", language := "ST",
         code := "PROGRAM P END_PROGRAM", timestamp := "10:00" }] ∧
    (handleGenerate { initPlcState with requirement := "pump control" } 9 "10:00"
        (.httpError 500 "boom")).1.codeHistory = [] ∧
    (handleGenerate { initPlcState with requirement := "pump control" } 9 "10:00"
        (.httpError 500 "boom")).1.generatedCode = none ∧
    (handleGenerate initPlcState 9 "10:00" (.httpError 500 "boom")).1 = initPlcState ∧
    (hmiHandleGenerate { initHmiState with requirement := "show a gauge" } 9 "10:00"
        (.ok { hmi_code := "<html></html>" })).1.hmiHistory =
      [{ id := 9, requirement := "show a gauge",
         hmi_code := "<html></html>", timestamp := "10:00" }] ∧
    (hmiHandleGenerate { initHmiState with requirement := "show a gauge" } 9 "10:00"
        (.networkError "down")).1.hmiHistory = [] ∧
    (hmiHandleGenerate { initHmiState with requirement := "show a gauge" } 9 "10:00"
        (.networkError "down")).1.generatedHmi = none :=
  c3_one_append_per_success
    { initPlcState with requirement := "pump control" } 9 "10:00"
    { code := "PROGRAM P END_PROGRAM", language := "ST", validated := true
      warnings := [], explanation := "ok", timestamp := "2025-01-01" }
    (by decide) (.httpError 500 "boom") (by decide)
    initPlcState (by decide) (.httpError 500 "boom")
    { initHmiState with requirement := "show a gauge" }
    { hmi_code := "<html></html>" } (by decide)
    (.networkError "down") (by decide)

/-- C9, counterexample data: a well-formed generation response. -/
def c9Data : GeneratedData :=
  { code := "PROGRAM P END_PROGRAM", language := "ST", validated := true
    warnings := [], explanation := "ok", timestamp := "2025-01-01" }

/-- C9, counterexample trace: login, type a requirement, open the
dialog, log out (removing the stored token), then generate. -/
def c9Trace : List Event :=
  [.loginOk "jwt-token", .typeRequirement "pump control", .tryNow, .logout,
   .generate 7 "10:00" (.ok c9Data)]

/-- C9 fails as stated: after a logout that races the open dialog, a
generation fetch is issued from a state with no stored token, and the
run even completes and appends to history. -/
theorem c9_counterexample :
    fetchesWithoutToken initGState c9Trace = 1 ∧
    (runG initGState c9Trace).token = none ∧
    (runG initGState c9Trace).plc.codeHistory.length = 1 := by
  decide

/-- C9 amended: the generation dialog can be opened only when a stored
token is present (`handleTryNow` is a no-op otherwise), and a
generation fetch can be issued only while the dialog is open; token
presence at the moment the request is issued is, however, not
guaranteed, since the token may be removed after the dialog opened. -/
theorem c9_amended_token_gate (s : GState) (hT : jsTokenAbsent s.token = true)
    (s2 : GState) (hM : s2.plc.showModal = false)
    (now : Nat) (tstr : String) (out : FetchOutcome)
    (u : HmiState) (token : Option String) (hU : jsTokenAbsent token = true) :
    stepG s .tryNow = (s, 0) ∧
    (stepG s2 (.generate now tstr out)).2 = 0 ∧
    hmiHandleTryNow u token = u := by
  refine ⟨?_, ?_, ?_⟩
  · simp [stepG, handleTryNow, hT]
  · simp [stepG, hM]
  · simp [hmiHandleTryNow, hU]

/-- Witness for C9 amended at the initial session state. -/
theorem c9_amended_witness :
    stepG initGState .tryNow = (initGState, 0) ∧
    (stepG initGState (.generate 1 "t" (.networkError "down"))).2 = 0 ∧
    hmiHandleTryNow initHmiState none = initHmiState :=
  c9_amended_token_gate initGState (by decide) initGState (by decide)
    1 "t" (.networkError "down") initHmiState none (by decide)

/-- The wire form of a finding starts with the error marker exactly
when the finding has error severity. -/
lemma startsWith_err_marker (f : Finding) :
    jsStartsWith (findingToWarning f) "❌" = isErrorF f := by
  obtain ⟨i, sev, msg, ds⟩ := f
  have h1 : ("❌" : String).data = ['❌'] := rfl
  have h2 : ("⚠️" : String).data = ['⚠', '️'] := rfl
  have h3 : ("💡" : String).data = ['💡'] := rfl
  have h4 : (" " : String).data = [' '] := rfl
  cases sev <;>
    simp +decide [jsStartsWith, findingToWarning, severityMarker, isErrorF,
      h1, h2, h3, h4, List.isPrefixOf, List.cons_prefix_cons]

/-- Severity predicates exclude one another. -/
lemma severity_flags_exclusive (f : Finding) :
    (isErrorF f && isWarnF f) = false ∧ (isErrorF f && isTipF f) = false := by
  cases h : f.severity <;> simp [isErrorF, isWarnF, isTipF, h]

/-- The error-severity part of a built report is the error-severity
part of the validator output. -/
lemma buildReport_filter_err (fs : List Finding) :
    (buildReport fs).findings.filter isErrorF = fs.filter isErrorF := by
  have hW : ∀ f ∈ fs, ¬ (isErrorF f && isWarnF f) = true := by
    intro f _
    simp [(severity_flags_exclusive f).1]
  have hT : ∀ f ∈ fs, ¬ (isErrorF f && isTipF f) = true := by
    intro f _
    simp [(severity_flags_exclusive f).2]
  simp [buildReport, List.filter_append, List.filter_filter,
    List.filter_eq_nil_iff.mpr hW, List.filter_eq_nil_iff.mpr hT]

/-- C1: in every built report, `validated` is true exactly when the
error-severity subset of its findings is empty, and false exactly when
the boundary warning-string list contains at least one string marked
with the error prefix the client classifies on. -/
theorem c1_validated_iff_no_errors (fs : List Finding) :
    ((buildReport fs).validated = true ↔
      (buildReport fs).findings.filter isErrorF = []) ∧
    ((buildReport fs).validated = false ↔
      ∃ w ∈ (buildReport fs).findings.map findingToWarning,
        jsStartsWith w "❌" = true) := by
  have hv : (buildReport fs).validated = (fs.filter isErrorF).isEmpty := rfl
  constructor
  · rw [hv, buildReport_filter_err, List.isEmpty_iff]
  · rw [hv]
    constructor
    · intro hfalse
      have hne : fs.filter isErrorF ≠ [] := by
        intro hnil
        rw [hnil] at hfalse
        simp at hfalse
      obtain ⟨f, hf⟩ := List.exists_mem_of_ne_nil _ hne
      have hmem := (List.mem_filter.mp hf).1
      have hp := (List.mem_filter.mp hf).2
      refine ⟨findingToWarning f, List.mem_map_of_mem findingToWarning ?_, ?_⟩
      · have : f ∈ (buildReport fs).findings.filter isErrorF := by
          rw [buildReport_filter_err]
          exact List.mem_filter.mpr ⟨hmem, hp⟩
        exact (List.mem_filter.mp this).1
      · rw [startsWith_err_marker]
        exact hp
    · rintro ⟨w, hw, hstart⟩
      obtain ⟨f, hf, rfl⟩ := List.mem_map.mp hw
      rw [startsWith_err_marker] at hstart
      have hfe : f ∈ (buildReport fs).findings.filter isErrorF :=
        List.mem_filter.mpr ⟨hf, hstart⟩
      rw [buildReport_filter_err] at hfe
      have : fs.filter isErrorF ≠ [] := by
        intro hnil
        rw [hnil] at hfe
        simp at hfe
      simpa [List.isEmpty_iff] using this

/-- The rule ids of the findings form a sublist of the rule ids of the
evaluated rule table. -/
lemma applyRules_ruleIds_sublist (rules : List VRule) (code : String) (d : Dialect) :
    ((applyRules rules code d).map Finding.rule_id).Sublist (rules.map VRule.id) := by
  induction rules with
  | nil => simp [applyRules]
  | cons r rs ih =>
      by_cases h : r.ok code
      · simpa [applyRules, List.filterMap_cons, h] using ih.cons r.id
      · simpa [applyRules, List.filterMap_cons, h] using ih.cons₂ r.id

/-- Every combined rule table carries strictly ascending rule ids. -/
lemma tableIds_sorted (d : Dialect) (v : Vendor) :
    ((ruleTable d ++ vendorRules v).map VRule.id).Pairwise (· < ·) := by
  cases d <;> cases v <;> decide

/-- C4: validation is a pure function — two runs on the same inputs
give the same finding list — and the built report is the concatenation
of the error, warning and tip sub-lists, each an order-preserving
sub-list of the validator output, which itself is in strictly
ascending rule-id order. -/
theorem c4_validation_pure_ordered (code : String) (d : Dialect) (v : Vendor) :
    validateDialect code d v = validateDialect code d v ∧
    (buildReport (validateDialect code d v)).findings =
      (validateDialect code d v).filter isErrorF ++
        (validateDialect code d v).filter isWarnF ++
        (validateDialect code d v).filter isTipF ∧
    ((validateDialect code d v).filter isErrorF).Sublist (validateDialect code d v) ∧
    ((validateDialect code d v).filter isWarnF).Sublist (validateDialect code d v) ∧
    ((validateDialect code d v).filter isTipF).Sublist (validateDialect code d v) ∧
    ((validateDialect code d v).map Finding.rule_id).Pairwise (· < ·) :=
  ⟨rfl, rfl, List.filter_sublist _, List.filter_sublist _, List.filter_sublist _,
    (tableIds_sorted d v).sublist (applyRules_ruleIds_sublist _ _ _)⟩

/-- A chain of successful runs appends one entry per run, in order,
with the requirement and language fields frozen at their current
values and each id taken from that run's clock reading. -/
lemma runSuccesses_codeHistory (runs : List (Nat × String × GeneratedData))
    (s : PlcState) (h : ¬ jsTrim s.requirement = "") :
    (runSuccesses s runs).codeHistory =
      s.codeHistory ++ runs.map (fun r =>
        { id := r.1, requirement := s.requirement, language := s.language,
          code := r.2.2.code, timestamp := r.2.1 }) := by
  induction runs generalizing s with
  | nil => simp [runSuccesses]
  | cons run rest ih =>
      obtain ⟨now, tstr, d⟩ := run
      show (runSuccesses (handleGenerate s now tstr (.ok d)).1 rest).codeHistory = _
      have hreq : (handleGenerate s now tstr (.ok d)).1.requirement = s.requirement := by
        simp [handleGenerate, h]
      have hlang : (handleGenerate s now tstr (.ok d)).1.language = s.language := by
        simp [handleGenerate, h]
      have hhist : (handleGenerate s now tstr (.ok d)).1.codeHistory =
          s.codeHistory ++
            [{ id := now, requirement := s.requirement, language := s.language,
               code := d.code, timestamp := tstr }] := by
        simp [handleGenerate, h]
      rw [ih _ (by rw [hreq]; exact h), hreq, hlang, hhist]
      simp

/-- C8, counterexample base state: a typed requirement, empty history. -/
def c8Start : PlcState := { initPlcState with requirement := "pump control" }

/-- C8, counterexample response data. -/
def c8Data : GeneratedData :=
  { code := "PROGRAM P END_PROGRAM", language := "ST", validated := true
    warnings := [], explanation := "ok", timestamp := "2025-01-01" }

/-- C8 fails as stated: two successful runs packaged in the same
millisecond (the id is `Date.now()`) carry the same id, so ids are not
distinct. -/
theorem c8_counterexample :
    ((runSuccesses c8Start [(42, "t1", c8Data), (42, "t2", c8Data)]).codeHistory.map
        HistEntry.id) = [42, 42] ∧
    ¬ ((runSuccesses c8Start [(42, "t1", c8Data), (42, "t2", c8Data)]).codeHistory.map
        HistEntry.id).Nodup := by
  decide

/-- C8 amended: N successful runs in a fresh session produce exactly N
history entries in append order, each entry's id being the `Date.now()`
reading at packaging time; the ids are distinct whenever those clock
readings are pairwise distinct (which the code does not itself
guarantee). -/
theorem c8_amended_ids_from_clock (s : PlcState)
    (runs : List (Nat × String × GeneratedData))
    (h : ¬ jsTrim s.requirement = "") (h0 : s.codeHistory = []) :
    (runSuccesses s runs).codeHistory.length = runs.length ∧
    (runSuccesses s runs).codeHistory.map HistEntry.id = runs.map (fun r => r.1) ∧
    ((runs.map (fun r => r.1)).Nodup →
      ((runSuccesses s runs).codeHistory.map HistEntry.id).Nodup) := by
  rw [runSuccesses_codeHistory runs s h, h0]
  refine ⟨by simp, by simp [List.map_map, Function.comp], ?_⟩
  intro hnd
  simpa [List.map_map, Function.comp] using hnd

/-- Witness for C8 amended: two runs at clock readings 1 and 2 yield
two entries with ids 1 and 2, which are distinct. -/
theorem c8_amended_witness :
    (runSuccesses c8Start [(1, "t1", c8Data), (2, "t2", c8Data)]).codeHistory.length = 2 ∧
    (runSuccesses c8Start [(1, "t1", c8Data), (2, "t2", c8Data)]).codeHistory.map
      HistEntry.id = [1, 2] ∧
    ((runSuccesses c8Start [(1, "t1", c8Data), (2, "t2", c8Data)]).codeHistory.map
      HistEntry.id).Nodup := by
  have H := c8_amended_ids_from_clock c8Start [(1, "t1", c8Data), (2, "t2", c8Data)]
    (by decide) (by decide)
  exact ⟨H.1, H.2.1, H.2.2 (by decide)⟩

end Agent4Plc
